import Mathlib

/-!
Shallow embedding of the PubChemBot conversation engine (src/main.py).

The embedding models the per-user session state machine of the bot:
the two `ConversationHandler`s wired in `main` (search and compare flows),
the callback-token dispatch of `button_handler`, the per-user search
history (`SEARCH_HISTORY[user]`) and favorites (`FAVORITES[user]`whose dict
is modelled as an association list with unique keys), and the comparison
computation of `send_comparison`.

Network effects (`PubChemClient`) are abstracted as an environment `Env`
of pure oracles supplied to every event; each handler of the source file
becomes a pure function `Session → ... → Session × List Response`.

python-telegram-bot dispatch semantics used by the model:
  * handlers are tried in registration order (search conversation, compare
    conversation, text handler, `button_handler`); the first match consumes
    the update;
  * an active conversation only matches its state handlers and fallbacks;
    its entry points are checked only while it is inactive;
  * a conversation callback returning `None` leaves the conversation state
    unchanged (relevant for the `back_to_menu` fallback `show_main_menu`,
    which returns `None`);
  * returning `ConversationHandler.END` deactivates the conversation.
-/

/-- Decimal digit to its character, as Python's `str` renders nonnegative
integers (the catch-all branch is never reached for real digits). -/
def digitChar (d : Nat) : Char :=
  if d = 0 then '0' else if d = 1 then '1' else if d = 2 then '2'
  else if d = 3 then '3' else if d = 4 then '4' else if d = 5 then '5'
  else if d = 6 then '6' else if d = 7 then '7' else if d = 8 then '8' else '9'

/-- Inverse of `digitChar` on digit characters. -/
def digitVal (c : Char) : Nat :=
  if c = '0' then 0 else if c = '1' then 1 else if c = '2' then 2
  else if c = '3' then 3 else if c = '4' then 4 else if c = '5' then 5
  else if c = '6' then 6 else if c = '7' then 7 else if c = '8' then 8 else 9

/-- Characters of the decimal rendering of `n`, most significant first:
Python's `str(n)` for a nonnegative integer (as used by the f-strings of
`show_history`, `send_molecule_info` and `button_handler`). -/
def natToDigitChars (n : Nat) : List Char :=
  if n = 0 then ['0'] else (Nat.digits 10 n).reverse.map digitChar

/-- `str(n)` as a `String`. -/
def natDecStr (n : Nat) : String := ⟨natToDigitChars n⟩

/-- Parse a digit-character list back to the number it renders. -/
def digitCharsToNat (l : List Char) : Nat :=
  Nat.ofDigits 10 ((l.map digitVal).reverse)

/-- Python's `s.replace(pat, "")` on character lists: scan left to right,
removing each (non-overlapping) occurrence of `pat`.  `button_handler`
uses `query.data.replace(prefix, "")` to recover the payload of prefixed
callback tokens. -/
def pyStrip (pat : List Char) : List Char → List Char
  | [] => []
  | c :: rest =>
    if pat ≠ [] ∧ pat.isPrefixOf (c :: rest) then
      pyStrip pat (rest.drop (pat.length - 1))
    else
      c :: pyStrip pat rest
termination_by l => l.length
decreasing_by
  · simp only [List.length_drop, List.length_cons]; omega
  · simp only [List.length_cons]; omega

/-- `tok.replace(pre, "")` at the `String` level. -/
def stripToken (pre tok : String) : String := ⟨pyStrip pre.data tok.data⟩

/-- Normalized compound record, the dictionary built by
`PubChemClient.search_compound`.  The `'MolecularWeight'` entry is a
numeric string or the sentinel `'N/A'`; the sentinel is modelled as
`none`, a numeric value as `some` of its exact decimal value. -/
structure CompoundRecord where
  cid : Nat
  name : String
  formula : String
  molecularWeight : Option ℚ
  iupacName : String
  smiles : String
  inchiKey : String
deriving Repr, DecidableEq

/-- The two live states of the compare `ConversationHandler`
(`COMPARE_FIRST` and `COMPARE_SECOND`). -/
inductive CompareStage
  | first
  | second
deriving Repr, DecidableEq

/-- Spec-level view of the conversation state of one user. -/
inductive ConvState
  | idle
  | awaitingSearchQuery
  | awaitingFirstCompareTerm
  | awaitingSecondCompareTerm
deriving Repr, DecidableEq

/-- One entry of `SEARCH_HISTORY[user]` as appended by
`process_chemical_search`. -/
structure HistoryEntry where
  name : String
  cid : Nat
  time : Nat
deriving Repr, DecidableEq

/-- Per-user session state: the states of the two conversation handlers,
the loosely stashed first comparison record (`context.user_data['compare_first']`),
`SEARCH_HISTORY[user]` and `FAVORITES[user]` (a dict keyed by the cid
string of the callback token, holding display names). -/
structure Session where
  searchConv : Bool
  compareConv : Option CompareStage
  compareFirstScratch : Option CompoundRecord
  history : List HistoryEntry
  favorites : List (String × String)
deriving Repr, DecidableEq

/-- The four spec states, read from a session; when both conversations
are simultaneously active (reachable only through the fallback bug), the
search conversation wins, matching dispatch order. -/
def Session.convState (s : Session) : ConvState :=
  if s.searchConv then ConvState.awaitingSearchQuery
  else match s.compareConv with
    | none => ConvState.idle
    | some CompareStage.first => ConvState.awaitingFirstCompareTerm
    | some CompareStage.second => ConvState.awaitingSecondCompareTerm

/-- A fresh session (first interaction of a user). -/
def initialSession : Session :=
  { searchConv := false, compareConv := none, compareFirstScratch := none
    history := [], favorites := [] }

/-- Inbound events: a free-text message or a callback-button press
carrying its token (`callback_data`). -/
inductive Event
  | textEntry (t : String)
  | menuSelect (tok : String)
deriving Repr, DecidableEq

/-- Outbound response descriptions.  `ack` is `query.answer(...)` (a
silent acknowledgment when its text is `none`); `menu` is
`show_main_menu`; `prompt` is a text with an inline keyboard of
`(label, token)` choices; `moleculeInfo` is `send_molecule_info`'s
formatted record; `comparison` is `send_comparison`'s message, carrying
the mass difference in hundredths as rendered by the `:.2f` format. -/
inductive Response
  | ack (text : Option String)
  | menu (text : String)
  | prompt (text : String) (choices : List (String × String))
  | moleculeInfo (r : CompoundRecord) (choices : List (String × String))
  | comparison (first second : CompoundRecord) (diffHundredths : ℤ)
deriving Repr, DecidableEq

/-- A user-facing message (anything except the callback acknowledgment,
which renders no message). -/
def isMessage : Response → Bool
  | Response.ack _ => false
  | _ => true

/-- Pure oracle environment standing for `PubChemClient` and the other
effects of one event: `search_compound query by_cid` (`none` on any
failure), `get_random_compound`, `get_similar_compounds` (`[]` on
failure), whether the depiction fetch of `send_molecule_info` succeeds,
and `datetime.now().timestamp()`. -/
structure Env where
  search_compound : String → Bool → Option CompoundRecord
  get_random_compound : Option CompoundRecord
  get_similar_compounds : String → List Nat
  imageOk : Bool
  now : Nat

def main_menu_text : String := "👨‍🔬 *Химический бот*\n\nВыберите действие:"

def search_prompt_text : String := "🔍 Введите название молекулы или её CID:"

def compare_prompt_text : String := "⚖️ Введите название или CID первой молекулы:"

def second_molecule_text : String := "Теперь введите вторую молекулу:"

def retry_text : String := "Молекула не найдена. Попробуйте снова:"

def help_text : String :=
  "🆘 *Помощь*\n\nЭтот бот помогает искать информацию о химических соединениях в базе PubChem.\n\n🔹 *Основные функции:*\n- Поиск по названию или CID\n- Просмотр случайных молекул\n- Сравнение свойств молекул\n- История поиска и избранное\n\nИспользуйте кнопки меню для навигации."

/-- `create_main_menu` as a flat `(label, token)` choice list. -/
def mainMenuChoices : List (String × String) :=
  [("🔍 Поиск молекулы", "search"),
   ("🎲 Случайная молекула", "random"),
   ("⚖️ Сравнить молекулы", "compare"),
   ("📚 Примеры молекул", "examples"),
   ("📋 История поиска", "history"),
   ("⭐ Избранное", "favorites"),
   ("ℹ️ Помощь", "help")]

def backChoices : List (String × String) := [("↩️ Назад", "back_to_menu")]

/-- `MOLECULE_EXAMPLES`. -/
def MOLECULE_EXAMPLES : List (String × List (String × String)) :=
  [("Лекарства",
    [("Аспирин", "aspirin"), ("Ибупрофен", "ibuprofen"), ("Парацетамол", "paracetamol")]),
   ("Аминокислоты", [("Глицин", "glycine"), ("Аланин", "alanine")]),
   ("Витамины", [("Витамин C", "ascorbic acid"), ("Витамин B12", "vitamin b12")])]

/-- Python dict assignment `FAVORITES[u][k] = v`: update in place when the
key exists, else append (insertion order preserved). -/
def addFavorite : List (String × String) → String → String → List (String × String)
  | [], k, v => [(k, v)]
  | (k', v') :: rest, k, v =>
    if k' = k then (k, v) :: rest
    else (k', v') :: addFavorite rest k v

/-- Python `k in FAVORITES[u]` / value read. -/
def lookupFav : List (String × String) → String → Option String
  | [], _ => none
  | (k', v) :: rest, k => if k' = k then some v else lookupFav rest k

/-- Removal of a key, the effect of `FAVORITES[u].pop(k)`. -/
def eraseFav (m : List (String × String)) (k : String) : List (String × String) :=
  m.filter (fun p => p.1 ≠ k)

/-- The guarded pop of `button_handler`'s `remove_` branch:
`if cid in FAVORITES[user_id]: name = FAVORITES[user_id].pop(cid)`.
Returns the popped name (`none` when absent, in which case the dict is
untouched and nothing fails). -/
def removeFavorite (m : List (String × String)) (k : String) :
    Option String × List (String × String) :=
  match lookupFav m k with
  | some v => (some v, eraseFav m k)
  | none => (none, m)

/-- `SEARCH_HISTORY[user].append(entry)` (write side: unbounded). -/
def appendHistoryEntry (h : List HistoryEntry) (e : HistoryEntry) : List HistoryEntry :=
  h ++ [e]

/-- `history[-5:]` then `reversed(...)`: the read-time display window of
`show_history`. -/
def displayed_history (h : List HistoryEntry) : List HistoryEntry :=
  (h.drop (h.length - 5)).reverse

/-- The choice token `f"history_{cid}"`. -/
def history_token (cid : Nat) : String := "history_" ++ natDecStr cid

/-- `show_history`. -/
def show_history (s : Session) : List Response :=
  if s.history.isEmpty then [Response.menu "История поиска пуста."]
  else
    [Response.prompt "🔍 История поиска:"
      (((displayed_history s.history).map fun e => (e.name, history_token e.cid))
        ++ backChoices)]

/-- `show_favorites` (each favorite renders an open button and a remove
button; the 2-D grid is flattened row by row). -/
def show_favorites (s : Session) : List Response :=
  if s.favorites.isEmpty then [Response.menu "У вас нет сохранённых молекул."]
  else
    [Response.prompt "⭐ Избранные молекулы:"
      ((s.favorites.map fun p =>
          [(p.2, "history_" ++ p.1), ("❌", "remove_" ++ p.1)]).flatten
        ++ backChoices)]

/-- `show_examples`. -/
def show_examples : List Response :=
  [Response.prompt "📚 Примеры молекул:"
    ((MOLECULE_EXAMPLES.map fun p => (p.1, "category_" ++ p.1)) ++ backChoices)]

/-- `MOLECULE_EXAMPLES.get(category, [])`. -/
def lookupExamples : List (String × List (String × String)) → String → List (String × String)
  | [], _ => []
  | (k, v) :: rest, c => if k = c then v else lookupExamples rest c

/-- `show_category`. -/
def show_category (cat : String) : List Response :=
  [Response.prompt ("🔬 " ++ cat ++ ":")
    (((lookupExamples MOLECULE_EXAMPLES cat).map fun p => (p.1, "search_" ++ p.2))
      ++ [("↩️ Назад", "examples")])]

/-- Keyboard of the `similar_` branch of `button_handler` (each similar
cid becomes a `history_` token; the back button reopens the original). -/
def similarKeyboard (orig : String) (sim : List Nat) : List (String × String) :=
  (sim.enum.map fun ic => ("Молекула " ++ natDecStr (ic.1 + 1), "history_" ++ natDecStr ic.2))
    ++ [("↩️ Назад", "history_" ++ orig)]

/-- `send_comparison`: `float(w) if w != 'N/A' else 0` for both weights,
then `abs(mw1 - mw2)` rendered with the `:.2f` format (modelled as the
integer number of hundredths of the exact value). -/
def send_comparison (first second : CompoundRecord) : Response :=
  let mw1 : ℚ := first.molecularWeight.getD 0
  let mw2 : ℚ := second.molecularWeight.getD 0
  let massDiff : ℚ := |mw1 - mw2|
  Response.comparison first second (round (massDiff * 100))

/-- Inline keyboard attached by `send_molecule_info` on a successful
depiction fetch (the PubChem URL button is transport-only and omitted). -/
def moleculeKeyboard (r : CompoundRecord) : List (String × String) :=
  [("🧪 Похожие", "similar_" ++ natDecStr r.cid),
   ("💾 Сохранить", "save_" ++ natDecStr r.cid),
   ("↩️ Меню", "back_to_menu")]

/-- `send_molecule_info`: with an image the formatted record carries the
similar/save/menu keyboard, otherwise (image failure or exception) the
same formatted text is sent with the main menu. -/
def send_molecule_info (env : Env) (r : CompoundRecord) : Response :=
  if env.imageOk then Response.moleculeInfo r (moleculeKeyboard r)
  else Response.moleculeInfo r mainMenuChoices

/-- `process_chemical_search`: resolve, and on success append to
`SEARCH_HISTORY[user]` and send the record; on failure reply with a
not-found message over the main menu, leaving the session untouched. -/
def process_chemical_search (env : Env) (query : String) (byCid : Bool)
    (s : Session) : Session × List Response :=
  match env.search_compound query byCid with
  | none =>
    (s, [Response.prompt ("Не удалось найти молекулу '" ++ query ++ "'.") mainMenuChoices])
  | some r =>
    ({ s with history := s.history ++ [⟨r.name, r.cid, env.now⟩] },
     [send_molecule_info env r])

/-- `handle_search`: run the search and end the search conversation
(`return ConversationHandler.END`), success or failure. -/
def handle_search (env : Env) (s : Session) (t : String) : Session × List Response :=
  let p := process_chemical_search env t false s
  ({ p.1 with searchConv := false }, p.2)

/-- `compare_first`: on success stash the record in
`context.user_data['compare_first']` and move to `COMPARE_SECOND`; on
failure re-prompt and stay in `COMPARE_FIRST`. -/
def compare_first (env : Env) (s : Session) (t : String) : Session × List Response :=
  match env.search_compound t false with
  | some r =>
    ({ s with compareConv := some CompareStage.second, compareFirstScratch := some r },
     [Response.prompt second_molecule_text backChoices])
  | none => (s, [Response.prompt retry_text backChoices])

/-- `compare_second`: on success compare against the stashed first record
and end the conversation; on failure re-prompt and stay in
`COMPARE_SECOND`.  A missing stash raises `KeyError` in the source, so
the handler produces nothing and the state is left unchanged. -/
def compare_second (env : Env) (s : Session) (t : String) : Session × List Response :=
  match env.search_compound t false with
  | some snd =>
    match s.compareFirstScratch with
    | some fst => ({ s with compareConv := none }, [send_comparison fst snd])
    | none => (s, [])
  | none => (s, [Response.prompt retry_text backChoices])

/-- The closed dispatch outcomes of the `elif` chain of `button_handler`
(exact-token tests first, then `startswith` prefix tests, in source
order; `unknown` is a token no branch matches). -/
inductive Tok
  | backToMenu
  | searchBtn
  | randomBtn
  | compareBtn
  | examplesBtn
  | historyBtn
  | favoritesBtn
  | helpBtn
  | categoryPre
  | searchPre
  | historyPre
  | similarPre
  | savePre
  | removePre
  | unknown
deriving Repr, DecidableEq

/-- Which branch of `button_handler`'s dispatch chain a callback token
takes.  The patterns appear in the order of the source's `if`/`elif`
tests, and a prefix pattern matches exactly when the corresponding
`startswith` test fires. -/
def classifyTok : List Char → Tok
  | 'b' :: 'a' :: 'c' :: 'k' :: '_' :: 't' :: 'o' :: '_' :: 'm' :: 'e' :: 'n' :: 'u'::[] => Tok.backToMenu
  | 's' :: 'e' :: 'a' :: 'r' :: 'c' :: 'h'::[] => Tok.searchBtn
  | 'r' :: 'a' :: 'n' :: 'd' :: 'o' :: 'm'::[] => Tok.randomBtn
  | 'c' :: 'o' :: 'm' :: 'p' :: 'a' :: 'r' :: 'e'::[] => Tok.compareBtn
  | 'e' :: 'x' :: 'a' :: 'm' :: 'p' :: 'l' :: 'e' :: 's'::[] => Tok.examplesBtn
  | 'h' :: 'i' :: 's' :: 't' :: 'o' :: 'r' :: 'y'::[] => Tok.historyBtn
  | 'f' :: 'a' :: 'v' :: 'o' :: 'r' :: 'i' :: 't' :: 'e' :: 's'::[] => Tok.favoritesBtn
  | 'h' :: 'e' :: 'l' :: 'p'::[] => Tok.helpBtn
  | 'c' :: 'a' :: 't' :: 'e' :: 'g' :: 'o' :: 'r' :: 'y' :: '_'::_ => Tok.categoryPre
  | 's' :: 'e' :: 'a' :: 'r' :: 'c' :: 'h' :: '_'::_ => Tok.searchPre
  | 'h' :: 'i' :: 's' :: 't' :: 'o' :: 'r' :: 'y' :: '_'::_ => Tok.historyPre
  | 's' :: 'i' :: 'm' :: 'i' :: 'l' :: 'a' :: 'r' :: '_'::_ => Tok.similarPre
  | 's' :: 'a' :: 'v' :: 'e' :: '_'::_ => Tok.savePre
  | 'r' :: 'e' :: 'm' :: 'o' :: 'v' :: 'e' :: '_'::_ => Tok.removePre
  | _ => Tok.unknown

/-- `button_handler`: answers the callback query, then dispatches on the
token through the `elif` chain of the source.  Prefixed tokens recover
their payload via `replace(prefix, "")`. -/
def button_handler (env : Env) (s : Session) (tok : String) : Session × List Response :=
  let r : Session × List Response :=
    match classifyTok tok.data with
    | Tok.backToMenu => (s, [Response.menu main_menu_text])
    | Tok.searchBtn => (s, [Response.prompt search_prompt_text backChoices])
    | Tok.randomBtn =>
      match env.get_random_compound with
      | some rc => (s, [send_molecule_info env rc])
      | none => (s, [Response.menu "Не удалось получить случайную молекулу."])
    | Tok.compareBtn => (s, [Response.prompt compare_prompt_text backChoices])
    | Tok.examplesBtn => (s, show_examples)
    | Tok.historyBtn => (s, show_history s)
    | Tok.favoritesBtn => (s, show_favorites s)
    | Tok.helpBtn => (s, [Response.prompt help_text mainMenuChoices])
    | Tok.categoryPre => (s, show_category (stripToken "category_" tok))
    | Tok.searchPre => process_chemical_search env (stripToken "search_" tok) false s
    | Tok.historyPre => process_chemical_search env (stripToken "history_" tok) true s
    | Tok.similarPre =>
      let cid : String := stripToken "similar_" tok
      match env.get_similar_compounds cid with
      | [] => (s, [])
      | sim => (s, [Response.prompt "🧪 Похожие молекулы:" (similarKeyboard cid sim)])
    | Tok.savePre =>
      let cid : String := stripToken "save_" tok
      match env.search_compound cid true with
      | some rc =>
        ({ s with favorites := addFavorite s.favorites cid rc.name },
         [Response.ack (some ("Сохранено: " ++ rc.name))])
      | none => (s, [])
    | Tok.removePre =>
      let cid : String := stripToken "remove_" tok
      match removeFavorite s.favorites cid with
      | (some nm, favs) =>
        let s2 := { s with favorites := favs }
        (s2, Response.ack (some ("Удалено: " ++ nm)) :: show_favorites s2)
      | (none, _) => (s, [])
    | Tok.unknown => (s, [])
  (r.1, Response.ack none :: r.2)

/-- One inbound event of one user through the dispatch wired in `main`:
the search conversation, then the compare conversation, then the plain
text handler, then `button_handler`.  Conversation fallbacks catch
`back_to_menu` while their conversation is active, but their callback
`show_main_menu` returns `None`, which leaves the conversation state
unchanged; entry points (`search`, `compare`) fire only while their
conversation is inactive. -/
def handleEvent (env : Env) (s : Session) : Event → Session × List Response
  | Event.textEntry t =>
    if s.searchConv then handle_search env s t
    else
      match s.compareConv with
      | some CompareStage.first => compare_first env s t
      | some CompareStage.second => compare_second env s t
      | none => process_chemical_search env t false s
  | Event.menuSelect tok =>
    if (s.searchConv || s.compareConv.isSome) && tok = "back_to_menu" then
      (s, [Response.menu main_menu_text])
    else if !s.searchConv && tok = "search" then
      ({ s with searchConv := true }, [Response.prompt search_prompt_text backChoices])
    else if s.compareConv = none && tok = "compare" then
      ({ s with compareConv := some CompareStage.first },
       [Response.prompt compare_prompt_text backChoices])
    else button_handler env s tok

/-- Environment in which every upstream call fails: all lookups resolve to
nothing, the random fetch fails, similarity queries return the empty list. -/
def envFail : Env :=
  { search_compound := fun _ _ => none
    get_random_compound := none
    get_similar_compounds := fun _ => []
    imageOk := true
    now := 0 }

/-- Aspirin as resolved by the client (CID 2244, weight string "180.16"). -/
def recAspirin : CompoundRecord :=
  { cid := 2244
    name := "aspirin"
    formula := "C9H8O4"
    molecularWeight := some (18016 / 100)
    iupacName := "2-acetyloxybenzoic acid"
    smiles := "CC(=O)OC1=CC=CC=C1C(=O)O"
    inchiKey := "BSYNRYMUTXBXSQ-UHFFFAOYSA-N" }

/-- A record whose weight string is "76.05". -/
def recWeight76 : CompoundRecord :=
  { cid := 756
    name := "glycolaldehyde dimer"
    formula := "C2H4O2"
    molecularWeight := some (7605 / 100)
    iupacName := "N/A"
    smiles := "N/A"
    inchiKey := "N/A" }

/-- A record whose molecular weight is the sentinel 'N/A'. -/
def recNA : CompoundRecord :=
  { cid := 999
    name := "unknownium"
    formula := "N/A"
    molecularWeight := none
    iupacName := "N/A"
    smiles := "N/A"
    inchiKey := "N/A" }

/-- Environment in which every lookup resolves to aspirin. -/
def envAspirin : Env :=
  { search_compound := fun _ _ => some recAspirin
    get_random_compound := some recAspirin
    get_similar_compounds := fun _ => []
    imageOk := true
    now := 7 }

/-- A user who has entered the compare flow and is asked for the first term. -/
def sessionAwaitFirst : Session :=
  { initialSession with compareConv := some CompareStage.first }

/-- A user awaiting the second compare term, with aspirin stashed as the
pending first record. -/
def sessionAwaitSecond : Session :=
  { initialSession with
    compareConv := some CompareStage.second
    compareFirstScratch := some recAspirin }

theorem isPrefixOf_append_self (p l : List Char) : p.isPrefixOf (p ++ l) = true := by
  induction p with
  | nil => simp [List.isPrefixOf]
  | cons a t ih => simp [List.isPrefixOf, ih]

theorem isPrefixOf_cons_false {c c₀ : Char} (p l : List Char) (h : c ≠ c₀) :
    (c₀ :: p).isPrefixOf (c :: l) = false := by
  simp only [List.isPrefixOf, Bool.and_eq_false_iff]
  left
  exact beq_eq_false_iff_ne.mpr (fun hc => h hc.symm)

theorem pyStrip_nil (pat : List Char) : pyStrip pat [] = [] := by
  simp [pyStrip]

theorem pyStrip_cons (pat : List Char) (c : Char) (rest : List Char) :
    pyStrip pat (c :: rest) =
      if pat ≠ [] ∧ pat.isPrefixOf (c :: rest) then pyStrip pat (rest.drop (pat.length - 1))
      else c :: pyStrip pat rest := by
  rw [pyStrip]

theorem pyStrip_append (c : Char) (p' l : List Char) :
    pyStrip (c :: p') ((c :: p') ++ l) = pyStrip (c :: p') l := by
  rw [List.cons_append, pyStrip_cons, if_pos]
  · rw [List.length_cons]
    simp only [Nat.add_sub_cancel, List.drop_left]
  · exact ⟨List.cons_ne_nil c p', isPrefixOf_append_self (c :: p') l⟩

theorem pyStrip_no_occurrence (c₀ : Char) (p' l : List Char)
    (h : ∀ c ∈ l, c ≠ c₀) : pyStrip (c₀ :: p') l = l := by
  induction l with
  | nil => exact pyStrip_nil _
  | cons c rest ih =>
    rw [pyStrip_cons, if_neg, ih (fun x hx => h x (List.mem_cons_of_mem _ hx))]
    intro hcond
    have hc : c ≠ c₀ := h c (List.mem_cons_self _ _)
    have := isPrefixOf_cons_false p' rest hc
    rw [hcond.2] at this
    exact absurd this (by decide)

theorem digitVal_digitChar {d : Nat} (hd : d < 10) : digitVal (digitChar d) = d := by
  interval_cases d <;> rfl

theorem digitChar_ne_h (d : Nat) : digitChar d ≠ 'h' := by
  unfold digitChar
  repeat' split
  all_goals decide

theorem natToDigitChars_ne_h (n : Nat) : ∀ c ∈ natToDigitChars n, c ≠ 'h' := by
  intro c hc
  unfold natToDigitChars at hc
  split at hc
  · rw [List.mem_singleton] at hc
    subst hc; decide
  · rw [List.mem_map] at hc
    obtain ⟨d, _, rfl⟩ := hc
    exact digitChar_ne_h d

theorem digitCharsToNat_natToDigitChars (n : Nat) :
    digitCharsToNat (natToDigitChars n) = n := by
  unfold natToDigitChars digitCharsToNat
  by_cases h : n = 0
  · subst h; rfl
  · rw [if_neg h, List.map_map]
    have hmap : (Nat.digits 10 n).reverse.map (digitVal ∘ digitChar)
        = (Nat.digits 10 n).reverse.map id := by
      apply List.map_congr_left
      intro d hd
      rw [List.mem_reverse] at hd
      exact digitVal_digitChar (Nat.digits_lt_base (by norm_num) hd)
    rw [hmap, List.map_id, List.reverse_reverse, Nat.ofDigits_digits]

theorem pyStrip_history_token (cid : Nat) :
    pyStrip "history_".data ("history_".data ++ natToDigitChars cid)
      = natToDigitChars cid := by
  have h1 : "history_".data = 'h' :: "istory_".data := rfl
  rw [h1, pyStrip_append]
  exact pyStrip_no_occurrence 'h' _ _ (natToDigitChars_ne_h cid)

theorem process_chemical_search_frame (env : Env) (q : String) (b : Bool) (s : Session) :
    (process_chemical_search env q b s).1.searchConv = s.searchConv
    ∧ (process_chemical_search env q b s).1.compareConv = s.compareConv
    ∧ (process_chemical_search env q b s).1.compareFirstScratch = s.compareFirstScratch
    ∧ (process_chemical_search env q b s).1.favorites = s.favorites := by
  unfold process_chemical_search
  cases env.search_compound q b <;> exact ⟨rfl, rfl, rfl, rfl⟩

theorem process_chemical_search_failure (env : Env) (q : String) (b : Bool) (s : Session)
    (h : env.search_compound q b = none) :
    process_chemical_search env q b s
      = (s, [Response.prompt ("Не удалось найти молекулу '" ++ q ++ "'.") mainMenuChoices]) := by
  unfold process_chemical_search
  rw [h]

theorem process_chemical_search_success (env : Env) (q : String) (b : Bool) (s : Session)
    (r : CompoundRecord) (h : env.search_compound q b = some r) :
    process_chemical_search env q b s
      = ({ s with history := s.history ++ [⟨r.name, r.cid, env.now⟩] },
         [send_molecule_info env r]) := by
  unfold process_chemical_search
  rw [h]

theorem button_handler_frame (env : Env) (s : Session) (tok : String) :
    (button_handler env s tok).1.searchConv = s.searchConv
    ∧ (button_handler env s tok).1.compareConv = s.compareConv
    ∧ (button_handler env s tok).1.compareFirstScratch = s.compareFirstScratch := by
  unfold button_handler
  dsimp only
  have hp := fun q b => process_chemical_search_frame env q b s
  cases classifyTok tok.data
  case searchPre => exact ⟨(hp _ _).1, (hp _ _).2.1, (hp _ _).2.2.1⟩
  case historyPre => exact ⟨(hp _ _).1, (hp _ _).2.1, (hp _ _).2.2.1⟩
  case randomBtn => cases env.get_random_compound <;> exact ⟨rfl, rfl, rfl⟩
  case similarPre => cases env.get_similar_compounds (stripToken "similar_" tok) <;> exact ⟨rfl, rfl, rfl⟩
  case savePre => cases env.search_compound (stripToken "save_" tok) true <;> exact ⟨rfl, rfl, rfl⟩
  case removePre =>
    rcases h : removeFavorite s.favorites (stripToken "remove_" tok) with ⟨_ | _, _⟩ <;> simp [h]
  all_goals exact ⟨rfl, rfl, rfl⟩

theorem displayed_history_eq (h : List HistoryEntry) :
    displayed_history h = h.reverse.take 5 := by
  unfold displayed_history
  have hr : h.drop (h.length - 5) = h.rtake 5 := rfl
  rw [hr, List.rtake_eq_reverse_take_reverse, List.reverse_reverse]

theorem handleEvent_menuSelect_other (env : Env) (s : Session) (tok : String)
    (h1 : tok ≠ "back_to_menu") (h2 : tok ≠ "search") (h3 : tok ≠ "compare") :
    handleEvent env s (Event.menuSelect tok) = button_handler env s tok := by
  unfold handleEvent
  simp only [h1, h2, h3, decide_False, Bool.and_false, Bool.false_and, if_false,
    Bool.false_eq_true, ite_false]

theorem history_token_data (cid : Nat) :
    (history_token cid).data
      = 'h' :: 'i' :: 's' :: 't' :: 'o' :: 'r' :: 'y' :: '_'::natToDigitChars cid := by
  unfold history_token natDecStr
  rw [String.data_append]
  rfl

theorem classifyTok_history_pre (l : List Char) :
    classifyTok ('h' :: 'i' :: 's' :: 't' :: 'o' :: 'r' :: 'y' :: '_'::l) = Tok.historyPre := rfl

theorem stripToken_history_token (cid : Nat) :
    stripToken "history_" (history_token cid) = natDecStr cid := by
  unfold stripToken natDecStr
  apply congrArg String.mk
  rw [history_token_data]
  exact pyStrip_history_token cid

theorem lookupFav_addFavorite (m : List (String × String)) (k v : String) :
    lookupFav (addFavorite m k v) k = some v := by
  induction m with
  | nil => simp [addFavorite, lookupFav]
  | cons p rest ih =>
    obtain ⟨k', v'⟩ := p
    by_cases h : k' = k <;> simp [addFavorite, lookupFav, h, ih]

theorem addFavorite_idem (m : List (String × String)) (k v : String) :
    addFavorite (addFavorite m k v) k v = addFavorite m k v := by
  induction m with
  | nil => simp [addFavorite]
  | cons p rest ih =>
    obtain ⟨k', v'⟩ := p
    by_cases h : k' = k <;> simp [addFavorite, h, ih]

theorem lookupFav_eraseFav (m : List (String × String)) (k : String) :
    lookupFav (eraseFav m k) k = none := by
  induction m with
  | nil => rfl
  | cons p rest ih =>
    obtain ⟨k', v'⟩ := p
    by_cases h : k' = k
    · simpa [eraseFav, h] using ih
    · simpa [eraseFav, lookupFav, h] using ih

theorem lookupFav_removeFavorite (m : List (String × String)) (k : String) :
    lookupFav (removeFavorite m k).2 k = none := by
  unfold removeFavorite
  cases hl : lookupFav m k with
  | none => exact hl
  | some v => exact lookupFav_eraseFav m k

theorem removeFavorite_of_absent (m : List (String × String)) (k : String)
    (h : lookupFav m k = none) : removeFavorite m k = (none, m) := by
  unfold removeFavorite
  rw [h]

theorem handle_search_frame (env : Env) (s : Session) (t : String) :
    (handle_search env s t).1.compareConv = s.compareConv
    ∧ (handle_search env s t).1.compareFirstScratch = s.compareFirstScratch
    ∧ (handle_search env s t).1.favorites = s.favorites
    ∧ (handle_search env s t).1.searchConv = false := by
  unfold handle_search
  have hp := process_chemical_search_frame env t false s
  exact ⟨hp.2.1, hp.2.2.1, hp.2.2.2, rfl⟩

theorem compare_second_frame (env : Env) (s : Session) (t : String) :
    (compare_second env s t).1.compareFirstScratch = s.compareFirstScratch
    ∧ (compare_second env s t).1.searchConv = s.searchConv
    ∧ (compare_second env s t).1.history = s.history
    ∧ (compare_second env s t).1.favorites = s.favorites := by
  unfold compare_second
  cases env.search_compound t false with
  | none => exact ⟨rfl, rfl, rfl, rfl⟩
  | some snd =>
    cases hsc : s.compareFirstScratch
    · exact ⟨hsc, rfl, rfl, rfl⟩
    · exact ⟨rfl, rfl, rfl, rfl⟩

theorem handleEvent_scratch_menuSelect (env : Env) (s : Session) (tok : String) :
    (handleEvent env s (Event.menuSelect tok)).1.compareFirstScratch
      = s.compareFirstScratch := by
  simp only [handleEvent]
  repeat' split
  any_goals rfl
  exact (button_handler_frame env s tok).2.2

theorem convState_idle_iff (s : Session) :
    s.convState = ConvState.idle ↔ (s.searchConv = false ∧ s.compareConv = none) := by
  obtain ⟨sc, cc, scr, hi, fa⟩ := s
  cases sc <;> rcases cc with _ | ⟨_ | _⟩ <;> simp [Session.convState]

/-- C10: comparing two resolved records whose molecular weights are 180.16
and 76.05 reports a mass difference of exactly 104.11 under two-decimal
rounding (the absolute difference of the two weights). -/
theorem C10_mass_difference_104_11 :
    send_comparison recAspirin recWeight76
      = Response.comparison recAspirin recWeight76 10411 := by
  unfold send_comparison
  have h0 : recAspirin.molecularWeight = some (18016 / 100) := rfl
  have h1 : recWeight76.molecularWeight = some (7605 / 100) := rfl
  rw [h0, h1]
  have h : (|(18016 / 100 : ℚ) - 7605 / 100| * 100) = ((10411 : ℤ) : ℚ) := by
    rw [show ((18016 / 100 : ℚ) - 7605 / 100) = 10411 / 100 by norm_num,
      abs_of_nonneg (by norm_num)]
    norm_num
  show Response.comparison recAspirin recWeight76
      (round (|(18016 / 100 : ℚ) - 7605 / 100| * 100)) = _
  rw [h, round_intCast]

/-- C1 counterexample: the code coerces an unknown ('N/A') molecular
weight to 0 rather than reporting the difference as unknown: with both
weights unknown the reported difference is 0 (rendered `0.00`), and with
one weight unknown it is the other weight coerced against zero (76.05),
contradicting the claim that the difference is reported as unknown and
never `0.00`. -/
theorem C1_counterexample :
    send_comparison recNA recNA = Response.comparison recNA recNA 0
    ∧ send_comparison recNA recWeight76 = Response.comparison recNA recWeight76 7605 := by
  constructor
  · unfold send_comparison
    have h0 : recNA.molecularWeight = none := rfl
    rw [h0]
    show Response.comparison recNA recNA (round (|(0 : ℚ) - 0| * 100)) = _
    norm_num
  · unfold send_comparison
    have h0 : recNA.molecularWeight = none := rfl
    have h1 : recWeight76.molecularWeight = some (7605 / 100) := rfl
    rw [h0, h1]
    show Response.comparison recNA recWeight76
        (round (|(0 : ℚ) - 7605 / 100| * 100)) = _
    have h : (|(0 : ℚ) - 7605 / 100| * 100) = ((7605 : ℤ) : ℚ) := by
      rw [show ((0 : ℚ) - 7605 / 100) = -(7605 / 100) by norm_num, abs_neg,
        abs_of_nonneg (by norm_num)]
      norm_num
    rw [h, round_intCast]

/-- C1 amended: when both molecular weights are present the reported
difference is the absolute difference of the two weights under two-decimal
rounding; when either weight is unknown (the 'N/A' case) it is coerced to
0 in the subtraction, so the reported difference is the absolute value of
the other operand (0 when both are unknown); the comparison is total and
always emits a comparison response — it never crashes. -/
theorem C1_amended_comparison (a b : CompoundRecord) (x y : ℚ) :
    (a.molecularWeight = some x → b.molecularWeight = some y →
      send_comparison a b = Response.comparison a b (round (|x - y| * 100)))
    ∧ (a.molecularWeight = none →
      send_comparison a b
        = Response.comparison a b (round (|0 - b.molecularWeight.getD 0| * 100)))
    ∧ (b.molecularWeight = none →
      send_comparison a b
        = Response.comparison a b (round (|a.molecularWeight.getD 0 - 0| * 100)))
    ∧ (a.molecularWeight = none → b.molecularWeight = none →
      send_comparison a b = Response.comparison a b 0) := by
  refine ⟨?_, ?_, ?_, ?_⟩
  · intro h1 h2
    unfold send_comparison
    rw [h1, h2]
    rfl
  · intro h1
    unfold send_comparison
    rw [h1]
    rfl
  · intro h2
    unfold send_comparison
    rw [h2]
    rfl
  · intro h1 h2
    unfold send_comparison
    rw [h1, h2]
    show Response.comparison a b (round (|(0 : ℚ) - 0| * 100)) = _
    norm_num

theorem C1_amended_comparison_witness :
    send_comparison recAspirin recWeight76
      = Response.comparison recAspirin recWeight76
          (round ((|(18016 / 100 : ℚ) - 7605 / 100|) * 100)) :=
  (C1_amended_comparison recAspirin recWeight76 (18016 / 100) (7605 / 100)).1 rfl rfl

/-- C2: evaluating the code at the failing input.  Pressing
`back_to_menu` while awaiting a compare term runs the conversation
fallback `show_main_menu`, which returns `None`, so the conversation
state is kept and the stashed first-comparison record is retained — the
session does not return to Idle and the scratch data is not discarded.
Only when already Idle does the session stay Idle. -/
theorem C2_back_to_menu_keeps_state :
    handleEvent envFail sessionAwaitFirst (Event.menuSelect "back_to_menu")
      = (sessionAwaitFirst, [Response.menu main_menu_text])
    ∧ sessionAwaitFirst.convState = ConvState.awaitingFirstCompareTerm
    ∧ handleEvent envFail sessionAwaitSecond (Event.menuSelect "back_to_menu")
      = (sessionAwaitSecond, [Response.menu main_menu_text])
    ∧ sessionAwaitSecond.compareFirstScratch = some recAspirin
    ∧ sessionAwaitSecond.convState = ConvState.awaitingSecondCompareTerm
    ∧ handleEvent envFail initialSession (Event.menuSelect "back_to_menu")
      = (initialSession, [Response.ack none, Response.menu main_menu_text]) := by
  refine ⟨?_, rfl, ?_, rfl, rfl, ?_⟩ <;> rfl

/-- C4 counterexample: a successful random lookup is formatted for the
user but no history entry is recorded — the history is unchanged,
contradicting the claim that success records a history entry. -/
theorem C4_counterexample :
    envAspirin.get_random_compound = some recAspirin
    ∧ (handleEvent envAspirin initialSession (Event.menuSelect "random")).1.history
        = initialSession.history := by
  exact ⟨rfl, rfl⟩

/-- C4 amended: MenuSelect(random) in Idle calls the random lookup; on
success the record is formatted and sent to the user but no history
entry is recorded (the history is unchanged); on failure an error
message is emitted; in both cases the conversation state remains Idle. -/
theorem C4_amended_random (env : Env) (s : Session)
    (hidle : s.convState = ConvState.idle) :
    (∀ r, env.get_random_compound = some r →
      handleEvent env s (Event.menuSelect "random")
        = (s, [Response.ack none, send_molecule_info env r]))
    ∧ (env.get_random_compound = none →
      handleEvent env s (Event.menuSelect "random")
        = (s, [Response.ack none,
               Response.menu "Не удалось получить случайную молекулу."]))
    ∧ (handleEvent env s (Event.menuSelect "random")).1.convState = ConvState.idle
    ∧ (handleEvent env s (Event.menuSelect "random")).1.history = s.history := by
  have hb : handleEvent env s (Event.menuSelect "random") = button_handler env s "random" :=
    handleEvent_menuSelect_other env s _ (by decide) (by decide) (by decide)
  have hc : classifyTok ("random" : String).data = Tok.randomBtn := rfl
  refine ⟨?_, ?_, ?_, ?_⟩
  · intro r hr
    rw [hb]
    unfold button_handler
    rw [hc, hr]
  · intro hr
    rw [hb]
    unfold button_handler
    rw [hc, hr]
  · rw [hb]
    unfold button_handler
    rw [hc]
    cases hr : env.get_random_compound <;> exact hidle
  · rw [hb]
    unfold button_handler
    rw [hc]
    cases hr : env.get_random_compound <;> rfl

theorem C4_amended_random_witness :
    handleEvent envAspirin initialSession (Event.menuSelect "random")
      = (initialSession,
         [Response.ack none, send_molecule_info envAspirin recAspirin]) :=
  (C4_amended_random envAspirin initialSession rfl).1 recAspirin rfl

/-- C8: adding a favorite and then removing it returns the stored name;
a second removal, or removal of a key never added, returns absent with
the stored map untouched and no failure; adding the same favorite twice
equals adding it once, and removing twice equals removing once. -/
theorem C8_favorites_ops (m : List (String × String)) (k v : String) :
    (removeFavorite (addFavorite m k v) k).1 = some v
    ∧ removeFavorite ((removeFavorite (addFavorite m k v) k).2) k
        = (none, (removeFavorite (addFavorite m k v) k).2)
    ∧ (lookupFav m k = none → removeFavorite m k = (none, m))
    ∧ addFavorite (addFavorite m k v) k v = addFavorite m k v
    ∧ removeFavorite (removeFavorite m k).2 k = (none, (removeFavorite m k).2) := by
  refine ⟨?_, ?_, removeFavorite_of_absent m k, addFavorite_idem m k v, ?_⟩
  · unfold removeFavorite
    rw [lookupFav_addFavorite]
  · exact removeFavorite_of_absent _ _ (lookupFav_removeFavorite (addFavorite m k v) k)
  · exact removeFavorite_of_absent _ _ (lookupFav_removeFavorite m k)

theorem C8_favorites_ops_witness :
    (removeFavorite (addFavorite [] "2244" "Aspirin") "2244").1 = some "Aspirin"
    ∧ removeFavorite ([] : List (String × String)) "2244"
        = (none, ([] : List (String × String))) :=
  ⟨(C8_favorites_ops [] "2244" "Aspirin").1,
   (C8_favorites_ops [] "2244" "Aspirin").2.2.1 rfl⟩

/-- C6: a successful resolution while awaiting the first compare term
transitions to awaiting the second term carrying exactly the resolved
record as the stashed pending value; every event handled while awaiting
the second term preserves the stash unchanged; and a successful second
resolution computes the comparison against exactly the stashed record. -/
theorem C6_pending_record (env : Env) (s : Session) :
    (∀ t r, s.searchConv = false → s.compareConv = some CompareStage.first →
      env.search_compound t false = some r →
      handleEvent env s (Event.textEntry t)
        = ({ s with
             compareConv := some CompareStage.second
             compareFirstScratch := some r },
           [Response.prompt second_molecule_text backChoices]))
    ∧ (∀ e, s.compareConv = some CompareStage.second →
      (handleEvent env s e).1.compareFirstScratch = s.compareFirstScratch)
    ∧ (∀ t fst snd, s.searchConv = false →
      s.compareConv = some CompareStage.second →
      s.compareFirstScratch = some fst →
      env.search_compound t false = some snd →
      handleEvent env s (Event.textEntry t)
        = ({ s with compareConv := none }, [send_comparison fst snd])) := by
  refine ⟨?_, ?_, ?_⟩
  · intro t r hs hcc hr
    simp only [handleEvent, hs, Bool.false_eq_true, if_false]
    rw [hcc]
    unfold compare_first
    rw [hr, hs]
  · intro e hcc
    cases e with
    | menuSelect tok => exact handleEvent_scratch_menuSelect env s tok
    | textEntry t =>
      simp only [handleEvent]
      cases hs : s.searchConv
      · simp only [Bool.false_eq_true, if_false]
        rw [hcc]
        exact (compare_second_frame env s t).1
      · simp only [if_true]
        exact (handle_search_frame env s t).2.1
  · intro t fst snd hs hcc hf hr
    simp only [handleEvent, hs, Bool.false_eq_true, if_false]
    rw [hcc]
    unfold compare_second
    rw [hr, hf, hs]

theorem C6_pending_record_witness :
    handleEvent envAspirin sessionAwaitFirst (Event.textEntry "aspirin")
      = ({ sessionAwaitFirst with
           compareConv := some CompareStage.second
           compareFirstScratch := some recAspirin },
         [Response.prompt second_molecule_text backChoices]) :=
  (C6_pending_record envAspirin sessionAwaitFirst).1 "aspirin" recAspirin rfl rfl rfl

/-- C7: the history display window shows at most 5 entries, ordered
most-recently-added first (equal to taking 5 from the reversed list, so
the head is the last appended), while writes retain everything:
`appendHistoryEntry` is a plain append, a sequence of appends stores the
whole sequence unbounded, a successful search appends exactly one entry,
and `show_history` truncates only at read time through
`displayed_history`. -/
theorem C7_history_retention_display (l h : List HistoryEntry) (e : HistoryEntry)
    (env : Env) (s : Session) (t : String) (r : CompoundRecord) :
    appendHistoryEntry h e = h ++ [e]
    ∧ List.foldl appendHistoryEntry [] l = l
    ∧ (displayed_history h).length ≤ 5
    ∧ displayed_history h = h.reverse.take 5
    ∧ displayed_history (h ++ [e]) = (e :: h.reverse).take 5
    ∧ (s.history ≠ [] → show_history s
        = [Response.prompt "🔍 История поиска:"
            (((displayed_history s.history).map fun en => (en.name, history_token en.cid))
              ++ backChoices)])
    ∧ (s.searchConv = false → s.compareConv = none →
        env.search_compound t false = some r →
        (handleEvent env s (Event.textEntry t)).1.history
          = s.history ++ [⟨r.name, r.cid, env.now⟩]) := by
  refine ⟨rfl, ?_, ?_, displayed_history_eq h, ?_, ?_, ?_⟩
  · have haux : ∀ (init : List HistoryEntry),
        List.foldl appendHistoryEntry init l = init ++ l := by
      induction l with
      | nil => intro init; simp
      | cons x xs ih => intro init; simp [appendHistoryEntry, ih]
    simpa using haux []
  · rw [displayed_history_eq, List.length_take]
    exact min_le_left _ _
  · rw [displayed_history_eq, List.reverse_append]
    simp
  · intro hne
    unfold show_history
    rw [if_neg]
    simp [List.isEmpty_iff, hne]
  · intro hs hcc hr
    simp only [handleEvent, hs, Bool.false_eq_true, if_false]
    rw [hcc, process_chemical_search_success env t false s r hr]

theorem C7_history_retention_display_witness :
    (handleEvent envAspirin initialSession (Event.textEntry "aspirin")).1.history
      = initialSession.history ++ [⟨recAspirin.name, recAspirin.cid, envAspirin.now⟩] :=
  (C7_history_retention_display [] [] ⟨"x", 0, 0⟩ envAspirin initialSession
    "aspirin" recAspirin).2.2.2.2.2.2 rfl rfl rfl

/-- C9: the history keyboard emits, for each displayed entry, the choice
token `history_<id>`; stripping the prefix back out of such a token (the
engine's `replace`) recovers exactly the decimal rendering of the id,
which parses back to the same id; and feeding the token through the
engine dispatches a by-identifier lookup of that id (the `history_`
branch of `button_handler` running `process_chemical_search` with
`by_cid` set). -/
theorem C9_history_token_roundtrip (env : Env) (s : Session) (cid : Nat) :
    (s.history ≠ [] → show_history s
      = [Response.prompt "🔍 История поиска:"
          (((displayed_history s.history).map fun en => (en.name, history_token en.cid))
            ++ backChoices)])
    ∧ stripToken "history_" (history_token cid) = natDecStr cid
    ∧ digitCharsToNat (natDecStr cid).data = cid
    ∧ handleEvent env s (Event.menuSelect (history_token cid))
        = ((process_chemical_search env (natDecStr cid) true s).1,
           Response.ack none :: (process_chemical_search env (natDecStr cid) true s).2) := by
  have hd := history_token_data cid
  have h1 : history_token cid ≠ "back_to_menu" := by
    intro hc
    have h := congrArg String.data hc
    rw [hd] at h
    rw [show ("back_to_menu" : String).data
        = 'b' :: 'a' :: 'c' :: 'k' :: '_' :: 't' :: 'o' :: '_' :: 'm' :: 'e' :: 'n' :: 'u'::[] from rfl] at h
    injection h with hh _
    exact absurd hh (by decide)
  have h2 : history_token cid ≠ "search" := by
    intro hc
    have h := congrArg String.data hc
    rw [hd] at h
    rw [show ("search" : String).data = 's' :: 'e' :: 'a' :: 'r' :: 'c' :: 'h'::[] from rfl] at h
    injection h with hh _
    exact absurd hh (by decide)
  have h3 : history_token cid ≠ "compare" := by
    intro hc
    have h := congrArg String.data hc
    rw [hd] at h
    rw [show ("compare" : String).data = 'c' :: 'o' :: 'm' :: 'p' :: 'a' :: 'r' :: 'e'::[] from rfl] at h
    injection h with hh _
    exact absurd hh (by decide)
  refine ⟨?_, stripToken_history_token cid, digitCharsToNat_natToDigitChars cid, ?_⟩
  · intro hne
    unfold show_history
    rw [if_neg]
    simp [List.isEmpty_iff, hne]
  · rw [handleEvent_menuSelect_other env s _ h1 h2 h3]
    unfold button_handler
    rw [hd, classifyTok_history_pre]
    dsimp only
    rw [stripToken_history_token cid]

theorem C9_history_token_roundtrip_witness :
    handleEvent envFail initialSession (Event.menuSelect (history_token 2244))
      = ((process_chemical_search envFail (natDecStr 2244) true initialSession).1,
         Response.ack none
           :: (process_chemical_search envFail (natDecStr 2244) true initialSession).2)
    ∧ digitCharsToNat (natDecStr 2244).data = 2244 :=
  ⟨(C9_history_token_roundtrip envFail initialSession 2244).2.2.2,
   (C9_history_token_roundtrip envFail initialSession 2244).2.2.1⟩

theorem ne_of_head_ne (c d : Char) (l₁ l₂ : List Char) (h : c ≠ d) :
    (⟨c :: l₁⟩ : String) ≠ (⟨d :: l₂⟩ : String) := by
  intro he
  have h2 : c :: l₁ = d :: l₂ := congrArg String.data he
  injection h2 with hh _
  exact h hh

theorem mk_ne_of_data_ne (l₁ l₂ : List Char) (h : l₁ ≠ l₂) :
    (⟨l₁⟩ : String) ≠ (⟨l₂⟩ : String) := by
  intro he
  exact h (congrArg String.data he)

/-- C3: with every compound lookup failing, handling any lookup-driven
flow event (a text entry in any state, the random button, or an
example/history token) leaves history, favorites and the stashed
first-comparison record unchanged; the compare conversation state never
changes and the search conversation either keeps its state or ends back
in Idle (re-prompt or error-return per the transition table); an
error-flavored user-facing message is always emitted; and in particular
a failed resolution while in AwaitingFirstCompareTerm leaves the user in
AwaitingFirstCompareTerm, not Idle. -/
theorem C3_lookup_failure_preserves_session (env : Env) (s : Session) (e : Event)
    (hL : ∀ q b, env.search_compound q b = none)
    (hR : env.get_random_compound = none)
    (he : (∃ t, e = Event.textEntry t)
        ∨ e = Event.menuSelect "random"
        ∨ (∃ r, e = Event.menuSelect ⟨'s' :: 'e' :: 'a' :: 'r' :: 'c' :: 'h' :: '_'::r⟩)
        ∨ (∃ r, e = Event.menuSelect ⟨'h' :: 'i' :: 's' :: 't' :: 'o' :: 'r' :: 'y' :: '_'::r⟩)) :
    (handleEvent env s e).1.history = s.history
    ∧ (handleEvent env s e).1.favorites = s.favorites
    ∧ (handleEvent env s e).1.compareFirstScratch = s.compareFirstScratch
    ∧ (handleEvent env s e).1.compareConv = s.compareConv
    ∧ ((handleEvent env s e).1.searchConv = s.searchConv
        ∨ (handleEvent env s e).1.searchConv = false)
    ∧ (handleEvent env s e).2.any (fun x => isMessage x) = true
    ∧ (s.searchConv = false → s.compareConv = some CompareStage.first →
        (handleEvent env s e).1.convState = ConvState.awaitingFirstCompareTerm) := by
  rcases he with ⟨t, rfl⟩ | rfl | ⟨r, rfl⟩ | ⟨r, rfl⟩
  · cases hs : s.searchConv with
    | true =>
      have hred : handleEvent env s (Event.textEntry t)
          = ({ s with searchConv := false },
             [Response.prompt ("Не удалось найти молекулу '" ++ t ++ "'.") mainMenuChoices]) := by
        simp only [handleEvent, hs, if_true]
        unfold handle_search
        rw [process_chemical_search_failure env t false s (hL t false)]
      rw [hred]
      refine ⟨rfl, rfl, rfl, rfl, Or.inr rfl, rfl, ?_⟩
      intro h1 _
      exact Bool.noConfusion h1
    | false =>
      rcases hcc : s.compareConv with _ | (_ | _)
      · have hred : handleEvent env s (Event.textEntry t)
            = (s, [Response.prompt ("Не удалось найти молекулу '" ++ t ++ "'.") mainMenuChoices]) := by
          simp only [handleEvent, hs, Bool.false_eq_true, if_false]
          rw [hcc]
          exact process_chemical_search_failure env t false s (hL t false)
        rw [hred]
        refine ⟨rfl, rfl, rfl, hcc, Or.inl hs, rfl, ?_⟩
        intro _ h2
        exact Option.noConfusion h2
      · have hred : handleEvent env s (Event.textEntry t)
            = (s, [Response.prompt retry_text backChoices]) := by
          simp only [handleEvent, hs, Bool.false_eq_true, if_false]
          rw [hcc]
          unfold compare_first
          rw [hL t false]
        rw [hred]
        refine ⟨rfl, rfl, rfl, hcc, Or.inl hs, rfl, ?_⟩
        intro _ _
        simp [Session.convState, hs, hcc]
      · have hred : handleEvent env s (Event.textEntry t)
            = (s, [Response.prompt retry_text backChoices]) := by
          simp only [handleEvent, hs, Bool.false_eq_true, if_false]
          rw [hcc]
          unfold compare_second
          rw [hL t false]
        rw [hred]
        refine ⟨rfl, rfl, rfl, hcc, Or.inl hs, rfl, ?_⟩
        intro _ h2
        simp at h2
  · have hred : handleEvent env s (Event.menuSelect "random")
        = (s, [Response.ack none,
               Response.menu "Не удалось получить случайную молекулу."]) := by
      rw [handleEvent_menuSelect_other env s _ (by decide) (by decide) (by decide)]
      unfold button_handler
      rw [show classifyTok ("random" : String).data = Tok.randomBtn from rfl, hR]
    rw [hred]
    refine ⟨rfl, rfl, rfl, rfl, Or.inl rfl, rfl, ?_⟩
    intro h1 h2
    simp [Session.convState, h1, h2]
  · have hne1 : (⟨'s' :: 'e' :: 'a' :: 'r' :: 'c' :: 'h' :: '_'::r⟩ : String) ≠ "back_to_menu" :=
      ne_of_head_ne 's' 'b' _ _ (by decide)
    have hne2 : (⟨'s' :: 'e' :: 'a' :: 'r' :: 'c' :: 'h' :: '_'::r⟩ : String) ≠ "search" :=
      mk_ne_of_data_ne _ _ (by simp)
    have hne3 : (⟨'s' :: 'e' :: 'a' :: 'r' :: 'c' :: 'h' :: '_'::r⟩ : String) ≠ "compare" :=
      ne_of_head_ne 's' 'c' _ _ (by decide)
    have hred : handleEvent env s (Event.menuSelect ⟨'s' :: 'e' :: 'a' :: 'r' :: 'c' :: 'h' :: '_'::r⟩)
        = (s, [Response.ack none,
               Response.prompt ("Не удалось найти молекулу '"
                 ++ stripToken "search_" ⟨'s' :: 'e' :: 'a' :: 'r' :: 'c' :: 'h' :: '_'::r⟩ ++ "'.")
                 mainMenuChoices]) := by
      rw [handleEvent_menuSelect_other env s _ hne1 hne2 hne3]
      unfold button_handler
      rw [show classifyTok ('s' :: 'e' :: 'a' :: 'r' :: 'c' :: 'h' :: '_'::r) = Tok.searchPre from rfl]
      dsimp only
      rw [process_chemical_search_failure env _ false s (hL _ false)]
    rw [hred]
    refine ⟨rfl, rfl, rfl, rfl, Or.inl rfl, rfl, ?_⟩
    intro h1 h2
    simp [Session.convState, h1, h2]
  · have hne1 : (⟨'h' :: 'i' :: 's' :: 't' :: 'o' :: 'r' :: 'y' :: '_'::r⟩ : String) ≠ "back_to_menu" :=
      ne_of_head_ne 'h' 'b' _ _ (by decide)
    have hne2 : (⟨'h' :: 'i' :: 's' :: 't' :: 'o' :: 'r' :: 'y' :: '_'::r⟩ : String) ≠ "search" :=
      ne_of_head_ne 'h' 's' _ _ (by decide)
    have hne3 : (⟨'h' :: 'i' :: 's' :: 't' :: 'o' :: 'r' :: 'y' :: '_'::r⟩ : String) ≠ "compare" :=
      ne_of_head_ne 'h' 'c' _ _ (by decide)
    have hred : handleEvent env s (Event.menuSelect ⟨'h' :: 'i' :: 's' :: 't' :: 'o' :: 'r' :: 'y' :: '_'::r⟩)
        = (s, [Response.ack none,
               Response.prompt ("Не удалось найти молекулу '"
                 ++ stripToken "history_" ⟨'h' :: 'i' :: 's' :: 't' :: 'o' :: 'r' :: 'y' :: '_'::r⟩ ++ "'.")
                 mainMenuChoices]) := by
      rw [handleEvent_menuSelect_other env s _ hne1 hne2 hne3]
      unfold button_handler
      rw [classifyTok_history_pre]
      dsimp only
      rw [process_chemical_search_failure env _ true s (hL _ true)]
    rw [hred]
    refine ⟨rfl, rfl, rfl, rfl, Or.inl rfl, rfl, ?_⟩
    intro h1 h2
    simp [Session.convState, h1, h2]

theorem C3_lookup_failure_preserves_session_witness :
    (handleEvent envFail sessionAwaitFirst (Event.textEntry "nosuch")).1.history
        = sessionAwaitFirst.history
    ∧ (handleEvent envFail sessionAwaitFirst (Event.textEntry "nosuch")).1.convState
        = ConvState.awaitingFirstCompareTerm := by
  have h := C3_lookup_failure_preserves_session envFail sessionAwaitFirst
    (Event.textEntry "nosuch") (fun _ _ => rfl) rfl (Or.inl ⟨"nosuch", rfl⟩)
  exact ⟨h.1, h.2.2.2.2.2.2 rfl rfl⟩

/-- C5 counterexample: an empty similar-compounds result and a failed
favorite save each produce no user-facing message at all — the only
output is the silent callback acknowledgment, which renders nothing —
contradicting the claim that every failure kind produces a response
message. -/
theorem C5_counterexample :
    handleEvent envFail initialSession (Event.menuSelect "similar_10")
      = (initialSession, [Response.ack none])
    ∧ handleEvent envFail initialSession (Event.menuSelect "save_10")
      = (initialSession, [Response.ack none])
    ∧ ([Response.ack none].any (fun x => isMessage x)) = false := by
  refine ⟨rfl, rfl, rfl⟩

/-- C5 amended: every compound-lookup failure in the conversational flows
(a text entry in any state, or the random button) yields a user-facing
message returning the user to the menu or to the same prompt; but an
empty similar-compounds result and a failed favorite save emit no
message at all — their only output is the silent callback
acknowledgment. -/
theorem C5_failure_messages (env : Env) (s : Session) :
    (∀ t, env.search_compound t false = none →
      (handleEvent env s (Event.textEntry t)).2.any (fun x => isMessage x) = true)
    ∧ (env.get_random_compound = none →
      (handleEvent env s (Event.menuSelect "random")).2.any (fun x => isMessage x) = true)
    ∧ (∀ r, env.get_similar_compounds
          (stripToken "similar_" ⟨'s' :: 'i' :: 'm' :: 'i' :: 'l' :: 'a' :: 'r' :: '_'::r⟩) = [] →
      handleEvent env s (Event.menuSelect ⟨'s' :: 'i' :: 'm' :: 'i' :: 'l' :: 'a' :: 'r' :: '_'::r⟩)
        = (s, [Response.ack none]))
    ∧ (∀ r, env.search_compound
          (stripToken "save_" ⟨'s' :: 'a' :: 'v' :: 'e' :: '_'::r⟩) true = none →
      handleEvent env s (Event.menuSelect ⟨'s' :: 'a' :: 'v' :: 'e' :: '_'::r⟩)
        = (s, [Response.ack none])) := by
  refine ⟨?_, ?_, ?_, ?_⟩
  · intro t hL
    simp only [handleEvent]
    cases hs : s.searchConv with
    | true =>
      unfold handle_search
      rw [process_chemical_search_failure env t false s hL]
      rfl
    | false =>
      simp only [Bool.false_eq_true, if_false]
      rcases hcc : s.compareConv with _ | (_ | _)
      · rw [process_chemical_search_failure env t false s hL]
        rfl
      · unfold compare_first
        rw [hL]
        rfl
      · unfold compare_second
        rw [hL]
        rfl
  · intro hR
    rw [handleEvent_menuSelect_other env s _ (by decide) (by decide) (by decide)]
    unfold button_handler
    rw [show classifyTok ("random" : String).data = Tok.randomBtn from rfl, hR]
    rfl
  · intro r hsim
    have hne1 : (⟨'s' :: 'i' :: 'm' :: 'i' :: 'l' :: 'a' :: 'r' :: '_'::r⟩ : String) ≠ "back_to_menu" :=
      ne_of_head_ne 's' 'b' _ _ (by decide)
    have hne2 : (⟨'s' :: 'i' :: 'm' :: 'i' :: 'l' :: 'a' :: 'r' :: '_'::r⟩ : String) ≠ "search" :=
      mk_ne_of_data_ne _ _ (by simp)
    have hne3 : (⟨'s' :: 'i' :: 'm' :: 'i' :: 'l' :: 'a' :: 'r' :: '_'::r⟩ : String) ≠ "compare" :=
      ne_of_head_ne 's' 'c' _ _ (by decide)
    rw [handleEvent_menuSelect_other env s _ hne1 hne2 hne3]
    unfold button_handler
    rw [show classifyTok ('s' :: 'i' :: 'm' :: 'i' :: 'l' :: 'a' :: 'r' :: '_'::r) = Tok.similarPre from rfl]
    dsimp only
    rw [hsim]
  · intro r hsave
    have hne1 : (⟨'s' :: 'a' :: 'v' :: 'e' :: '_'::r⟩ : String) ≠ "back_to_menu" :=
      ne_of_head_ne 's' 'b' _ _ (by decide)
    have hne2 : (⟨'s' :: 'a' :: 'v' :: 'e' :: '_'::r⟩ : String) ≠ "search" :=
      mk_ne_of_data_ne _ _ (by simp)
    have hne3 : (⟨'s' :: 'a' :: 'v' :: 'e' :: '_'::r⟩ : String) ≠ "compare" :=
      ne_of_head_ne 's' 'c' _ _ (by decide)
    rw [handleEvent_menuSelect_other env s _ hne1 hne2 hne3]
    unfold button_handler
    rw [show classifyTok ('s' :: 'a' :: 'v' :: 'e' :: '_'::r) = Tok.savePre from rfl]
    dsimp only
    rw [hsave]

theorem C5_failure_messages_witness :
    (handleEvent envFail initialSession (Event.textEntry "benzol")).2.any
        (fun x => isMessage x) = true
    ∧ handleEvent envFail initialSession
        (Event.menuSelect ⟨'s' :: 'i' :: 'm' :: 'i' :: 'l' :: 'a' :: 'r' :: '_'::['1']⟩)
        = (initialSession, [Response.ack none]) :=
  ⟨(C5_failure_messages envFail initialSession).1 "benzol" rfl,
   (C5_failure_messages envFail initialSession).2.2.1 ['1'] rfl⟩
